import Mathlib

/-!
Verification of the job orchestration and admission subsystem of the
nextconvert backend (Go). The definitions below are a shallow embedding of
the Go source: each Lean definition mirrors one Go function or data type,
with machine integers modeled as Int, float64 durations modeled as
rationals, timestamps as Nat, SQL NULL as Option, and the jobs table
projected to the single row addressed by the operation under study.
-/

namespace NextConvert

/-! ### Data model: jobs/module.go -/

/-- Job progress record (jobs/module.go, type Progress). -/
structure Progress where
  percent : Int
  currentOperation : String
  eta : Int
deriving Repr, DecidableEq

/-- Job error record (jobs/module.go, type JobError). -/
structure JobError where
  code : String
  message : String
  retryable : Bool
deriving Repr, DecidableEq

/-- One row of the jobs table, restricted to the columns the lifecycle
operations read or write. userId models the nullable user_id column,
timestamps are Nat seconds. -/
structure JobRow where
  id : String
  userId : Option String
  status : String
  conversionMinutes : Int
  progress : Progress
  outputFileId : Option String
  error : Option JobError
  startedAt : Option Nat
  completedAt : Option Nat
deriving Repr, DecidableEq

/-- WebSocket events published by the jobs module through the hub
(BroadcastJobProgress, BroadcastJobCompleted, BroadcastJobFailed in the
websocket package). -/
inductive WsEvent
  | progress (jobId : String) (percent : Int) (operation : String) (eta : Int)
  | completed (jobId : String) (outputFileId : String)
  | failed (jobId : String) (errorMsg : String)
deriving Repr, DecidableEq

/-- Wire frame type string of an event, as set by the Broadcast helpers. -/
def WsEvent.msgType : WsEvent → String
  | .progress _ _ _ _ => "job:progress"
  | .completed _ _ => "job:completed"
  | .failed _ _ => "job:failed"

/-- System state threaded through the lifecycle calls for one job: the
jobs row, the user_profiles usage map (conversion_minutes_used keyed by
user_id, total map with default rows), and the list of events published
so far on the hub. -/
structure SysState where
  row : JobRow
  profiles : String → Int
  events : List WsEvent

/-- nullString from jobs/module.go: empty and the literal anonymous id are
stored as SQL NULL. -/
def nullString (s : String) : Option String :=
  if s = "" || s = "anonymous" then none else some s

/-- RecordConversionMinutes from subscription/service.go: no-op when
minutes is not positive, otherwise an unconditional increment of the
profile row of that user. -/
def RecordConversionMinutes (userID : String) (minutes : Int)
    (profiles : String → Int) : String → Int :=
  if minutes ≤ 0 then profiles
  else fun u => if u = userID then profiles u + minutes else profiles u

/-- Module.UpdateProgress from jobs/module.go: an unconditional single-row
update that sets progress, forces status to processing, coalesces
started_at, then broadcasts a job:progress event. There is no guard on
the current status. -/
def UpdateProgress (now : Nat) (percent : Int) (operation : String)
    (eta : Int) (s : SysState) : SysState :=
  { s with
    row := { s.row with
      progress := ⟨percent, operation, eta⟩,
      status := "processing",
      startedAt := some (s.row.startedAt.getD now) },
    events := s.events ++ [.progress s.row.id percent operation eta] }

/-- Module.CompleteJob from jobs/module.go: first records conversion
minutes when the row has a non-null owner different from the anonymous
literal and positive conversion minutes, then unconditionally updates the
row to completed with the output file id, percent 100 and completed_at,
then broadcasts a job:completed event. No guard on the current status. -/
def CompleteJob (now : Nat) (outputFileID : String) (s : SysState) : SysState :=
  let profiles :=
    match s.row.userId with
    | some u =>
        if u ≠ "" ∧ u ≠ "anonymous" ∧ 0 < s.row.conversionMinutes then
          RecordConversionMinutes u s.row.conversionMinutes s.profiles
        else s.profiles
    | none => s.profiles
  { row := { s.row with
      status := "completed",
      outputFileId := some outputFileID,
      progress := ⟨100, "", 0⟩,
      completedAt := some now },
    profiles := profiles,
    events := s.events ++ [.completed s.row.id outputFileID] }

/-- Module.FailJob from jobs/module.go: unconditional update to failed
with an error record whose code is always PROCESSING_ERROR, then a
job:failed broadcast. No guard on the current status. -/
def FailJob (now : Nat) (errMsg : String) (retryable : Bool)
    (s : SysState) : SysState :=
  { s with
    row := { s.row with
      status := "failed",
      error := some ⟨"PROCESSING_ERROR", errMsg, retryable⟩,
      completedAt := some now },
    events := s.events ++ [.failed s.row.id errMsg] }

/-- Module.CancelJob from jobs/module.go: refuses only when the current
status is completed or cancelled (a failed job passes the check), then
updates status and completed_at and broadcasts through
BroadcastJobFailed, so the published event is a job:failed frame with the
message Job cancelled by user. -/
def CancelJob (now : Nat) (s : SysState) : Except String SysState :=
  if s.row.status = "completed" ∨ s.row.status = "cancelled" then
    .error ("job cannot be cancelled: status is " ++ s.row.status)
  else
    .ok { s with
      row := { s.row with status := "cancelled", completedAt := some now },
      events := s.events ++ [.failed s.row.id "Job cancelled by user"] }

/-- The state-changing calls of the job lifecycle. -/
inductive JobCall
  | updateProgress (percent : Int) (operation : String) (eta : Int)
  | complete (outputFileID : String)
  | fail (errMsg : String) (retryable : Bool)
  | cancel

/-- Apply one state-changing call; a refused CancelJob returns the error
to its caller and leaves the row unchanged. -/
def applyCall (now : Nat) (c : JobCall) (s : SysState) : SysState :=
  match c with
  | .updateProgress p op eta => UpdateProgress now p op eta s
  | .complete f => CompleteJob now f s
  | .fail m r => FailJob now m r s
  | .cancel =>
      match CancelJob now s with
      | .ok s2 => s2
      | .error _ => s

/-- Terminal statuses as named throughout the source. -/
def isTerminal (status : String) : Bool :=
  status = "completed" || status = "failed" || status = "cancelled"

/-! ### Admission: subscription/service.go and jobs/module.go -/

/-- Tier limits record (subscription/tiers.go, type TierLimits). -/
structure TierLimits where
  conversionMinutes : Int
  maxFileSizeBytes : Int
  priority : String
  useGPUEncoding : Bool
deriving Repr, DecidableEq

/-- The tierLimits table from subscription/tiers.go. -/
def tierLimits : List (String × TierLimits) :=
  [("free", ⟨50, 500 * 1024 * 1024, "default", false⟩),
   ("basic", ⟨1500, 1610612736, "high", false⟩),
   ("standard", ⟨2000, 2 * 1024 * 1024 * 1024, "critical", false⟩),
   ("pro", ⟨4000, 5 * 1024 * 1024 * 1024, "critical", true⟩)]

/-- GetTierLimits from subscription/tiers.go: map lookup with the free
tier as the default for unknown names. -/
def GetTierLimits (tier : String) : TierLimits :=
  (List.lookup tier tierLimits).getD ⟨50, 500 * 1024 * 1024, "default", false⟩

/-- ConversionMinutesFromDuration from subscription/service.go, with the
float64 duration modeled as a rational number of seconds. -/
def ConversionMinutesFromDuration (seconds : ℚ) : Int :=
  if seconds ≤ 0 then 1 else ⌈seconds / 60⌉

/-- The conversion-minutes value CreateJob actually checks and stores:
params.ConversionMinutes with a floor of 1 (jobs/module.go, CreateJob). -/
def createJobCheckedMinutes (conversionMinutes : Int) : Int :=
  if conversionMinutes ≤ 0 then 1 else conversionMinutes

/-- Service.CheckLimit for the conversion_minutes limit type
(subscription/service.go): reads the profile row keyed by the request
user id (creating it if absent) and admits exactly when used plus the
requested value stays within the tier limit. -/
def CheckLimitConversionMinutes (profiles : String → Int)
    (tierOf : String → String) (userID : String) (value : Int) : Bool :=
  let used := profiles userID
  let limit := (GetTierLimits (tierOf userID)).conversionMinutes
  decide (used + value ≤ limit)

/-- The admission step of Module.CreateJob (jobs/module.go): with the
subscription service wired in, the minutes check runs for every non-empty
user id, including the literal anonymous id, keyed by that same id. -/
def createJobAdmission (profiles : String → Int) (tierOf : String → String)
    (userID : String) (conversionMinutes : Int) : Bool :=
  if userID ≠ "" then
    CheckLimitConversionMinutes profiles tierOf userID
      (createJobCheckedMinutes conversionMinutes)
  else true

/-! ### Queue routing: jobs/module.go CreateJob and jobs/queue.go -/

/-- The queuePriority string computed in Module.CreateJob from the tier
limits: the switch maps priority critical to critical and high to high,
anything else keeps the initial default. -/
def createJobQueuePriority (tier : String) : String :=
  match (GetTierLimits tier).priority with
  | "critical" => "critical"
  | "high" => "high"
  | _ => "default"

/-- The numeric priority stored on the job row in Module.CreateJob. -/
def createJobPriorityInt (tier : String) : Int :=
  match (GetTierLimits tier).priority with
  | "critical" => 1
  | "high" => 3
  | _ => 5

/-- The asynq queue selected by QueueClient.EnqueueMediaProcess for a given
priority string: its switch has cases only for high (queue critical) and
low (queue low); every other value, including critical, falls through to
the default queue. -/
def enqueueMediaProcessQueue (priority : String) : String :=
  match priority with
  | "high" => "critical"
  | "low" => "low"
  | _ => "default"

/-- End-to-end queue routing of a submission by the owner tier:
Module.CreateJob computes the priority string and passes it to
QueueClient.EnqueueMediaProcess. -/
def routedQueue (tier : String) : String :=
  enqueueMediaProcessQueue (createJobQueuePriority tier)

/-! ### Executor output file: worker jobs handler, HandleMediaProcess -/

/-- One row of the files table, restricted to the columns of the executor
INSERT plus the nullable user_id column that the INSERT omits. -/
structure FileRow where
  id : String
  userId : Option String
  originalName : String
  storagePath : String
  mimeType : String
  sizeBytes : Int
  zone : String
  mediaType : String
  expiresAt : Nat
  createdAt : Nat
deriving Repr, DecidableEq

/-- filepath.Base for slash-separated paths: the last non-empty component,
with the Go conventions for the empty path and the root path. -/
def filepathBase (p : String) : String :=
  match ((p.splitOn "/").filter (fun c => c ≠ "")).getLast? with
  | some b => b
  | none => if p = "" then "." else "/"

/-- The files row inserted by the worker Handler.HandleMediaProcess on
success: id is the job id, original_name the base of the output path,
mime_type is the constant video/mp4, zone output, media_type the constant
video, expires_at seven days from now, and created_at NOW(). The INSERT
column list has no user_id, so the row owner is NULL no matter who owns
the job. -/
def insertedOutputFile (jobID outputPath : String) (sizeBytes : Int)
    (now : Nat) : FileRow :=
  { id := jobID,
    userId := none,
    originalName := filepathBase outputPath,
    storagePath := outputPath,
    mimeType := "video/mp4",
    sizeBytes := sizeBytes,
    zone := "output",
    mediaType := "video",
    expiresAt := now + 7 * 24 * 60 * 60,
    createdAt := now }

/-! ### WebSocket hub: api/websocket, Hub.SendToJob -/

/-- A connected client of the hub: its buffered outbound channel contents
and its job subscriptions. The id field stands in for the pointer
identity of the Go struct. -/
structure WsClient where
  id : Nat
  send : List String
  subscriptions : List String
deriving Repr, DecidableEq

/-- Capacity of the per-client send channel created in
Hub.HandleConnection. -/
def sendBufferCap : Nat := 256

/-- The per-client try-send of Hub.SendToJob: the select with a default
branch appends the message when the buffered channel has room and
otherwise skips the message, leaving the client untouched. -/
def trySendToClient (c : WsClient) (msg : String) : WsClient :=
  if c.send.length < sendBufferCap then { c with send := c.send ++ [msg] } else c

/-- Hub.SendToJob: iterates over all registered clients under a read lock
and try-sends the serialized message to those subscribed to the job. No
client is ever removed on this path. -/
def SendToJob (clients : List WsClient) (jobID msg : String) : List WsClient :=
  match clients with
  | [] => []
  | c :: rest =>
      (if c.subscriptions.contains jobID then trySendToClient c msg else c)
        :: SendToJob rest jobID msg

/-! ### Job listing: jobs/module.go ListJobs -/

/-- One row of the jobs table as seen by the ListJobs query. -/
structure JobListRow where
  id : String
  userId : Option String
  status : String
  createdAt : Nat
deriving Repr, DecidableEq

/-- The WHERE clause of the ListJobs query: the caller parameter matches
when it is empty or the literal anonymous id (in which case every row
passes), or equals the row owner, or the row owner is NULL; the status
parameter matches when empty or equal to the row status. -/
def listJobsWhere (userID status : String) (r : JobListRow) : Bool :=
  (userID = "" || userID = "anonymous" || r.userId = some userID
    || r.userId = none)
  && (status = "" || r.status = status)

/-- Insert one row into a list kept in descending created_at order. -/
def insertDesc (r : JobListRow) : List JobListRow → List JobListRow
  | [] => [r]
  | x :: xs => if x.createdAt ≤ r.createdAt then r :: x :: xs else x :: insertDesc r xs

/-- Sort rows by created_at descending (ORDER BY created_at DESC). -/
def sortDesc : List JobListRow → List JobListRow
  | [] => []
  | r :: rs => insertDesc r (sortDesc rs)

/-- Module.ListJobs: filter by the WHERE clause, order newest first,
LIMIT 50. -/
def ListJobs (userID status : String) (table : List JobListRow) : List JobListRow :=
  (sortDesc (table.filter (listJobsWhere userID status))).take 50

/-! ### Media processor: media/module.go, Processor.Process and
buildFFmpegArgs. Operation params are the JSON-decoded string-keyed maps
of the source, modeled as typed association lists; float64 values are
modeled as rationals. -/

/-- A dynamically typed operation parameter value. -/
inductive PValue
  | str (v : String)
  | int (v : Int)
  | float (v : ℚ)
  | bool (v : Bool)
deriving Repr, DecidableEq

/-- The string-keyed parameter map of an operation. -/
abbrev Params := List (String × PValue)

/-- A media operation (media/module.go, type Operation). -/
structure Operation where
  type : String
  params : Params
deriving Repr, DecidableEq

/-- Options passed to Processor.Process; the progress callback is not part
of the argument construction and is omitted. -/
structure ProcessOptions where
  inputPath : String
  inputPaths : List String
  outputPath : String
  operations : List Operation
deriving Repr, DecidableEq

/-- The processor configuration fields read by the argument builder. -/
structure Processor where
  ffmpegPath : String
  maxThreads : Int
  useHardwareAccel : Bool
  preferFastPresets : Bool
deriving Repr, DecidableEq

/-- Defaults of NewProcessor: auto threads, no hardware acceleration,
fast presets. -/
def defaultProcessor : Processor :=
  { ffmpegPath := "ffmpeg", maxThreads := 0,
    useHardwareAccel := false, preferFastPresets := true }

/-- Go int(float64) conversion: truncation toward zero. -/
def truncQ (q : ℚ) : Int := if q < 0 then ⌈q⌉ else ⌊q⌋

/-- Decimal float literal parser standing in for strconv.ParseFloat for
the plain sign-digits-dot-digits forms (exponent and hex float forms are
not modeled; no claim exercises them). -/
def parseDecimalQ (s : String) : Option ℚ :=
  let signed : Bool × String :=
    if s.startsWith "-" then (true, s.drop 1)
    else if s.startsWith "+" then (false, s.drop 1)
    else (false, s)
  match (signed.2).splitOn "." with
  | [ip] => (ip.toNat?).map (fun n => if signed.1 then -(n : ℚ) else (n : ℚ))
  | [ip, fp] =>
      match ip.toNat?, fp.toNat? with
      | some i, some f =>
          let q : ℚ := (i : ℚ) + (f : ℚ) / ((10 : ℚ) ^ fp.length)
          some (if signed.1 then -q else q)
      | _, _ => none
  | _ => none

/-- Rendering of a rational with a fixed number of decimals, standing in
for the Go fmt %.1f and %.2f verbs (rounding to nearest, half up). -/
def fmtFixed (decimals : Nat) (q : ℚ) : String :=
  let scaled : Int := round (q * ((10 : ℚ) ^ decimals))
  let a := scaled.natAbs
  let ip := a / 10 ^ decimals
  let fp := a % 10 ^ decimals
  let fpStr := toString fp
  let fpPad := String.mk (List.replicate (decimals - fpStr.length) '0') ++ fpStr
  (if scaled < 0 then "-" else "") ++ toString ip
    ++ (if decimals = 0 then "" else "." ++ fpPad)

/-- getIntParam from media/module.go: int values pass through, float64
values truncate, string values go through strconv.Atoi, anything else
falls back to the default. -/
def getIntParam (ps : Params) (key : String) (defaultVal : Int) : Int :=
  match List.lookup key ps with
  | some (.int v) => v
  | some (.float v) => truncQ v
  | some (.str v) =>
      match v.toInt? with
      | some i => i
      | none => defaultVal
  | _ => defaultVal

/-- getFloatParam from media/module.go. -/
def getFloatParam (ps : Params) (key : String) (defaultVal : ℚ) : ℚ :=
  match List.lookup key ps with
  | some (.float v) => v
  | some (.int v) => (v : ℚ)
  | some (.str v) =>
      match parseDecimalQ v with
      | some q => q
      | none => defaultVal
  | _ => defaultVal

/-- getBoolParam from media/module.go. -/
def getBoolParam (ps : Params) (key : String) (defaultVal : Bool) : Bool :=
  match List.lookup key ps with
  | some (.bool v) => v
  | some (.str v) => v = "true" || v = "1"
  | _ => defaultVal

/-- getStringParam from media/module.go. -/
def getStringParam (ps : Params) (key : String) (defaultVal : String) : String :=
  match List.lookup key ps with
  | some (.str v) => v
  | _ => defaultVal

/-- Drawtext escaping used by the watermark and text overlay cases:
backslash, apostrophe and colon are escaped in this order. -/
def escapeDrawtext (text : String) : String :=
  ((text.replace "\\" "\\\\").replace "\x27" "\x27\\\x27\x27").replace ":" "\\:"

/-- The preset chosen from the processor configuration, computed before
the operation loop and again for the default codec block. -/
def ffmpegPreset (p : Processor) : String :=
  if p.preferFastPresets then "veryfast" else "medium"

/-- Mutable state of the operation loop in buildFFmpegArgs. -/
structure ArgState where
  args : List String
  videoFilters : List String
  audioFilters : List String
deriving Repr, DecidableEq

/-- One iteration of the operation switch in buildFFmpegArgs. The switch
has no default case, so an operation whose type matches none of the
listed cases leaves the state untouched. The thumbnail case and the
addAudio case with a non-empty audio path return the final argument list
early, modeled by the right summand. -/
def ffmpegOpStep (p : Processor) (inputPath outputPath : String)
    (st : ArgState) (op : Operation) : ArgState ⊕ List String :=
  if op.type = "trim" then
    let a1 := match List.lookup "startTime" op.params with
      | some (.str v) => st.args ++ ["-ss", v]
      | _ => st.args
    let a2 := match List.lookup "endTime" op.params with
      | some (.str v) => a1 ++ ["-to", v]
      | _ => a1
    .inl { st with args := a2 }
  else if op.type = "resize" then
    let width := getIntParam op.params "width" 0
    let height := getIntParam op.params "height" 0
    let maintainAspect := getBoolParam op.params "maintainAspect" true
    if width > 0 ∨ height > 0 then
      let f :=
        if maintainAspect then
          if width > 0 ∧ height > 0 then
            "scale=" ++ toString width ++ ":" ++ toString height
              ++ ":force_original_aspect_ratio=decrease"
          else if width > 0 then "scale=" ++ toString width ++ ":-2"
          else "scale=-2:" ++ toString height
        else "scale=" ++ toString width ++ ":" ++ toString height
      .inl { st with videoFilters := st.videoFilters ++ [f] }
    else .inl st
  else if op.type = "compress" then
    let quality := getIntParam op.params "quality" 70
    let crf := (51 : Int) - Int.tdiv (quality * 51) 100
    let a := st.args ++ ["-crf", toString crf]
    let a := a ++
      (if p.useHardwareAccel then ["-c:v", "h264_videotoolbox", "-c:a", "aac"]
       else ["-c:v", "libx264", "-preset", ffmpegPreset p, "-c:a", "aac"])
    .inl { st with args := a }
  else if op.type = "convertFormat" then
    match List.lookup "targetFormat" op.params with
    | some (.str targetFormat) =>
        let a :=
          if targetFormat = "mp4" ∨ targetFormat = "mov" then
            st.args ++
              (if p.useHardwareAccel then ["-c:v", "h264_videotoolbox", "-c:a", "aac"]
               else ["-c:v", "libx264", "-preset", ffmpegPreset p, "-c:a", "aac"])
          else if targetFormat = "webm" then
            st.args ++ ["-c:v", "libvpx-vp9", "-cpu-used", "4", "-row-mt", "1",
                        "-c:a", "libopus"]
          else if targetFormat = "avi" then
            st.args ++ ["-c:v", "mpeg4", "-c:a", "mp3"]
          else if targetFormat = "mkv" then
            st.args ++
              (if p.useHardwareAccel then ["-c:v", "h264_videotoolbox", "-c:a", "aac"]
               else ["-c:v", "libx264", "-preset", ffmpegPreset p, "-c:a", "aac"])
          else st.args
        .inl { st with args := a }
    | _ =>
        match List.lookup "codec" op.params with
        | some (.str codec) =>
            let a :=
              if codec = "h264" then
                st.args ++
                  (if p.useHardwareAccel then ["-c:v", "h264_videotoolbox"]
                   else ["-c:v", "libx264", "-preset", ffmpegPreset p])
              else if codec = "h265" then
                st.args ++
                  (if p.useHardwareAccel then ["-c:v", "hevc_videotoolbox"]
                   else ["-c:v", "libx265", "-preset", ffmpegPreset p])
              else if codec = "vp9" then
                st.args ++ ["-c:v", "libvpx-vp9", "-cpu-used", "4", "-row-mt", "1"]
              else st.args
            .inl { st with args := a }
        | _ => .inl st
  else if op.type = "rotate" then
    let degrees := getIntParam op.params "degrees" 0
    let flipH := getBoolParam op.params "flipHorizontal" false
    let flipV := getBoolParam op.params "flipVertical" false
    let vf := st.videoFilters ++
      (if degrees = 90 then ["transpose=1"]
       else if degrees = 180 then ["transpose=1,transpose=1"]
       else if degrees = 270 then ["transpose=2"]
       else [])
    let vf := vf ++ (if flipH then ["hflip"] else [])
    let vf := vf ++ (if flipV then ["vflip"] else [])
    .inl { st with videoFilters := vf }
  else if op.type = "crop" then
    let x := getIntParam op.params "x" 0
    let y := getIntParam op.params "y" 0
    let w := getIntParam op.params "width" 0
    let h := getIntParam op.params "height" 0
    if w > 0 ∧ h > 0 then
      .inl { st with videoFilters := st.videoFilters ++
        ["crop=" ++ toString w ++ ":" ++ toString h ++ ":"
          ++ toString x ++ ":" ++ toString y] }
    else .inl st
  else if op.type = "extractAudio" then
    let a := st.args ++ ["-vn"]
    let format := getStringParam op.params "format" "mp3"
    let bitrate := getIntParam op.params "bitrate" 192000
    let a :=
      if format = "mp3" then
        a ++ ["-acodec", "libmp3lame", "-b:a", toString (Int.tdiv bitrate 1000) ++ "k"]
      else if format = "aac" then
        a ++ ["-acodec", "aac", "-b:a", toString (Int.tdiv bitrate 1000) ++ "k"]
      else if format = "wav" then a ++ ["-acodec", "pcm_s16le"]
      else if format = "flac" then a ++ ["-acodec", "flac", "-compression_level", "5"]
      else if format = "ogg" then
        a ++ ["-acodec", "libvorbis", "-b:a", toString (Int.tdiv bitrate 1000) ++ "k"]
      else a ++ ["-acodec", "libmp3lame", "-b:a", "192k"]
    .inl { st with args := a }
  else if op.type = "changeSpeed" then
    let multiplier := getFloatParam op.params "multiplier" 1
    if multiplier ≠ 1 then
      .inl { st with
        videoFilters := st.videoFilters
          ++ ["setpts=" ++ fmtFixed 2 (1 / multiplier) ++ "*PTS"],
        audioFilters := st.audioFilters ++ ["atempo=" ++ fmtFixed 2 multiplier] }
    else .inl st
  else if op.type = "createGif" then
    let fps := getIntParam op.params "fps" 10
    let width := getIntParam op.params "width" 480
    .inl { st with videoFilters := st.videoFilters ++
      ["fps=" ++ toString fps ++ ",scale=" ++ toString width ++ ":-1:flags=lanczos"] }
  else if op.type = "changeBitrate" then
    let bitrate := getIntParam op.params "bitrate" 128000
    .inl { st with args := st.args ++ ["-b:a", toString bitrate] }
  else if op.type = "adjustVolume" then
    let db := getFloatParam op.params "db" 0
    if db ≠ 0 then
      .inl { st with audioFilters := st.audioFilters
        ++ ["volume=" ++ fmtFixed 1 db ++ "dB"] }
    else .inl st
  else if op.type = "fadeInOut" then
    let fadeIn := getFloatParam op.params "fadeIn" 0
    let fadeOut := getFloatParam op.params "fadeOut" 0
    let af := st.audioFilters ++
      (if fadeIn > 0 then ["afade=t=in:st=0:d=" ++ fmtFixed 1 fadeIn] else [])
    let af := af ++
      (if fadeOut > 0 then ["afade=t=out:st=0:d=" ++ fmtFixed 1 fadeOut] else [])
    .inl { st with audioFilters := af }
  else if op.type = "addWatermark" then
    match List.lookup "text" op.params with
    | some (.str text) =>
        if text ≠ "" then
          let position := getStringParam op.params "position" "bottomright"
          let fontSize := getIntParam op.params "fontSize" 24
          let fontColor := getStringParam op.params "fontColor" "white"
          let opacity := getFloatParam op.params "opacity" (4 / 5)
          let xy : String × String :=
            if position = "topleft" then ("10", "10")
            else if position = "topright" then ("w-tw-10", "10")
            else if position = "bottomleft" then ("10", "h-th-10")
            else if position = "bottomright" then ("w-tw-10", "h-th-10")
            else if position = "center" then ("(w-tw)/2", "(h-th)/2")
            else ("w-tw-10", "h-th-10")
          let filter := "drawtext=text=\x27" ++ escapeDrawtext text
            ++ "\x27:fontfile=/usr/share/fonts/ttf-dejavu/DejaVuSans.ttf:fontsize="
            ++ toString fontSize ++ ":fontcolor=" ++ fontColor
            ++ ":alpha=" ++ fmtFixed 2 opacity ++ ":x=" ++ xy.1 ++ ":y=" ++ xy.2
          .inl { st with videoFilters := st.videoFilters ++ [filter] }
        else .inl st
    | _ => .inl st
  else if op.type = "filters" then
    let brightness := getFloatParam op.params "brightness" 0
    let contrast := getFloatParam op.params "contrast" 1
    let saturation := getFloatParam op.params "saturation" 1
    let gamma := getFloatParam op.params "gamma" 1
    let hue := getFloatParam op.params "hue" 0
    let blur := getFloatParam op.params "blur" 0
    let sharpen := getFloatParam op.params "sharpen" 0
    let vignette := getBoolParam op.params "vignette" false
    let grayscale := getBoolParam op.params "grayscale" false
    let sepia := getBoolParam op.params "sepia" false
    let negative := getBoolParam op.params "negative" false
    let eqParts : List String :=
      (if brightness ≠ 0 then ["brightness=" ++ fmtFixed 2 brightness] else [])
      ++ (if contrast ≠ 1 then ["contrast=" ++ fmtFixed 2 contrast] else [])
      ++ (if saturation ≠ 1 then ["saturation=" ++ fmtFixed 2 saturation] else [])
      ++ (if gamma ≠ 1 then ["gamma=" ++ fmtFixed 2 gamma] else [])
    let vf := st.videoFilters ++
      (if eqParts ≠ [] then ["eq=" ++ String.intercalate ":" eqParts] else [])
    let vf := vf ++ (if hue ≠ 0 then ["hue=h=" ++ fmtFixed 1 hue] else [])
    let vf := vf ++
      (if blur > 0 then
        let blurRadius := max (truncQ (blur * 2)) 1
        ["boxblur=" ++ toString blurRadius ++ ":" ++ toString blurRadius]
      else [])
    let vf := vf ++
      (if sharpen > 0 then ["unsharp=5:5:" ++ fmtFixed 1 (sharpen * 3 / 2) ++ ":5:5:0"]
       else [])
    let vf := vf ++ (if vignette then ["vignette=PI/4"] else [])
    let vf := vf ++
      (if grayscale then ["colorchannelmixer=.3:.4:.3:0:.3:.4:.3:0:.3:.4:.3"] else [])
    let vf := vf ++
      (if sepia then
        ["colorchannelmixer=.393:.769:.189:0:.349:.686:.168:0:.272:.534:.131"]
       else [])
    let vf := vf ++ (if negative then ["negate"] else [])
    .inl { st with videoFilters := vf }
  else if op.type = "split" then
    .inl st
  else if op.type = "thumbnail" then
    let timestamp := getStringParam op.params "timestamp" "00:00:01"
    let width := getIntParam op.params "width" 320
    .inr (["-ss", timestamp, "-i", inputPath, "-vframes", "1",
           "-vf", "scale=" ++ toString width ++ ":-1", "-q:v", "2", outputPath])
  else if op.type = "addAudio" then
    let audioPath := getStringParam op.params "audioPath" ""
    let mode := getStringParam op.params "mode" "mix"
    let volume := getFloatParam op.params "volume" 1
    if audioPath ≠ "" then
      if mode = "replace" then
        .inr (["-i", inputPath, "-i", audioPath, "-map", "0:v", "-map", "1:a",
               "-c:v", "copy"]
          ++ (if volume ≠ 1 then ["-af", "volume=" ++ fmtFixed 2 volume] else [])
          ++ ["-shortest", outputPath])
      else
        let volumeFilter := if volume ≠ 1 then ",volume=" ++ fmtFixed 2 volume else ""
        .inr (["-i", inputPath, "-i", audioPath, "-filter_complex",
               "[0:a][1:a]amix=inputs=2:duration=first" ++ volumeFilter ++ "[aout]",
               "-map", "0:v", "-map", "[aout]", "-c:v", "copy", outputPath])
    else .inl st
  else if op.type = "addText" then
    let text := getStringParam op.params "text" ""
    if text ≠ "" then
      let position := getStringParam op.params "position" "center"
      let fontSize := getIntParam op.params "fontSize" 48
      let fontColor := getStringParam op.params "fontColor" "white"
      let bgColor := getStringParam op.params "bgColor" ""
      let bgOpacity := getFloatParam op.params "bgOpacity" (1 / 2)
      let startTime := getFloatParam op.params "startTime" 0
      let endTime := getFloatParam op.params "endTime" 0
      let animation := getStringParam op.params "animation" "none"
      let xy : String × String :=
        if position = "topleft" then ("20", "20")
        else if position = "topcenter" then ("(w-tw)/2", "20")
        else if position = "topright" then ("w-tw-20", "20")
        else if position = "centerleft" then ("20", "(h-th)/2")
        else if position = "center" then ("(w-tw)/2", "(h-th)/2")
        else if position = "centerright" then ("w-tw-20", "(h-th)/2")
        else if position = "bottomleft" then ("20", "h-th-20")
        else if position = "bottomcenter" then ("(w-tw)/2", "h-th-20")
        else if position = "bottomright" then ("w-tw-20", "h-th-20")
        else ("(w-tw)/2", "(h-th)/2")
      let x :=
        if animation = "scrollLeft" then "w-" ++ toString (fontSize * 2) ++ "*t"
        else if animation = "scrollRight" then
          "-" ++ toString (fontSize * 5) ++ "+" ++ toString (fontSize * 2) ++ "*t"
        else xy.1
      let y :=
        if animation = "scrollUp" then "h-" ++ toString fontSize ++ "*t"
        else if animation = "scrollDown" then
          "-" ++ toString (fontSize * 2) ++ "+" ++ toString fontSize ++ "*t"
        else xy.2
      let filter := "drawtext=text=\x27" ++ escapeDrawtext text
        ++ "\x27:fontfile=/usr/share/fonts/ttf-dejavu/DejaVuSans-Bold.ttf:fontsize="
        ++ toString fontSize ++ ":fontcolor=" ++ fontColor ++ ":x=" ++ x ++ ":y=" ++ y
      let filter := filter ++
        (if bgColor ≠ "" then
          ":box=1:boxcolor=" ++ bgColor ++ "@" ++ fmtFixed 2 bgOpacity ++ ":boxborderw=10"
         else "")
      let filter := filter ++
        (if startTime > 0 ∨ endTime > 0 then
          (if endTime > 0 then
            ":enable=\x27between(t," ++ fmtFixed 2 startTime ++ ","
              ++ fmtFixed 2 endTime ++ ")\x27"
           else ":enable=\x27gte(t," ++ fmtFixed 2 startTime ++ ")\x27")
         else "")
      let filter := filter ++
        (if animation = "fadeIn" then ":alpha=\x27if(lt(t,1),t,1)\x27" else "")
      .inl { st with videoFilters := st.videoFilters ++ [filter] }
    else .inl st
  else if op.type = "removeAudio" then
    .inl { st with args := st.args ++ ["-an"] }
  else if op.type = "reverse" then
    .inl { st with videoFilters := st.videoFilters ++ ["reverse"],
                   audioFilters := st.audioFilters ++ ["areverse"] }
  else if op.type = "loop" then
    let loopCount := getIntParam op.params "count" 2
    .inl { st with args := st.args ++ ["-stream_loop", toString (loopCount - 1)] }
  else .inl st

/-- The operation loop of buildFFmpegArgs with its early returns. -/
def ffmpegOpsLoop (p : Processor) (inputPath outputPath : String) :
    ArgState → List Operation → ArgState ⊕ List String
  | st, [] => .inl st
  | st, op :: rest =>
      match ffmpegOpStep p inputPath outputPath st op with
      | .inl st2 => ffmpegOpsLoop p inputPath outputPath st2 rest
      | .inr args => .inr args

/-- buildFFmpegArgs from media/module.go: the base arguments, the
operation loop, the accumulated -vf and -af filter arguments, the default
video codec when filters are present but no codec was set, and the output
path. -/
def buildFFmpegArgs (p : Processor) (opts : ProcessOptions) : List String :=
  let initArgs := ["-y"]
    ++ (if p.maxThreads > 0 then ["-threads", toString p.maxThreads] else [])
    ++ ["-i", opts.inputPath]
  match ffmpegOpsLoop p opts.inputPath opts.outputPath
      ⟨initArgs, [], []⟩ opts.operations with
  | .inr args => args
  | .inl st =>
      let args := st.args
        ++ (if st.videoFilters ≠ [] then
              ["-vf", String.intercalate "," st.videoFilters] else [])
        ++ (if st.audioFilters ≠ [] then
              ["-af", String.intercalate "," st.audioFilters] else [])
      let hasVideoCodec := args.any (fun a => a = "-c:v" || a.startsWith "-codec:v")
      let args := args ++
        (if ¬ hasVideoCodec ∧ st.videoFilters ≠ [] then
          (if p.useHardwareAccel then ["-c:v", "h264_videotoolbox", "-c:a", "aac"]
           else ["-c:v", "libx264", "-preset", ffmpegPreset p, "-c:a", "aac"])
         else [])
      args ++ [opts.outputPath]

/-- How Processor.Process leaves the pure argument-building phase: either
the standard FFmpeg invocation, or the merge invocation, or the single
pre-invocation failure of processMerge when fewer than two inputs are
available. There is no other failure before the tool subprocess starts. -/
inductive ProcessInvocation
  | ffmpeg (args : List String)
  | mergeFFmpeg (args : List String)
  | mergeError (msg : String)
deriving Repr, DecidableEq

/-- The argument list built by processMerge for the concat re-encode. -/
def buildMergeArgs (p : Processor) (inputPaths : List String)
    (outputPath : String) : List String :=
  let n := inputPaths.length
  let args := ["-y"]
    ++ (if p.maxThreads > 0 then ["-threads", toString p.maxThreads] else [])
    ++ inputPaths.flatMap (fun ip => ["-i", ip])
  let filterParts := (List.range n).flatMap (fun i =>
    ["[" ++ toString i
       ++ ":v]scale=1920:1080:force_original_aspect_ratio=decrease,pad=1920:1080:(ow-iw)/2:(oh-ih)/2,setsar=1,fps=30,format=yuv420p[v"
       ++ toString i ++ "]",
     "[" ++ toString i
       ++ ":a]aformat=sample_fmts=fltp:sample_rates=44100:channel_layouts=stereo[a"
       ++ toString i ++ "]"])
  let concatInputs := String.join ((List.range n).map (fun i =>
    "[v" ++ toString i ++ "][a" ++ toString i ++ "]"))
  let filterParts := filterParts
    ++ [concatInputs ++ "concat=n=" ++ toString n ++ ":v=1:a=1[outv][outa]"]
  let args := args ++ ["-filter_complex", String.intercalate ";" filterParts,
                       "-map", "[outv]", "-map", "[outa]"]
  let args := args ++
    (if p.useHardwareAccel then ["-c:v", "h264_videotoolbox", "-b:v", "5M"]
     else ["-c:v", "libx264", "-preset", ffmpegPreset p, "-crf", "23"])
  args ++ ["-c:a", "aac", "-b:a", "192k", outputPath]

/-- processMerge from media/module.go: falls back to the single input
path when no list was given, fails before invocation when fewer than two
inputs remain, and otherwise invokes FFmpeg with the concat arguments. -/
def processMerge (p : Processor) (opts : ProcessOptions) : ProcessInvocation :=
  let inputPaths :=
    if opts.inputPaths.isEmpty ∧ opts.inputPath ≠ "" then [opts.inputPath]
    else opts.inputPaths
  if inputPaths.length < 2 then
    .mergeError "merge requires at least 2 input files"
  else .mergeFFmpeg (buildMergeArgs p inputPaths opts.outputPath)

/-- Processor.Process from media/module.go: routes to processMerge when
any operation has type merge, otherwise builds the FFmpeg arguments and
invokes the tool. There is no operation-type validation on this path. -/
def Process (p : Processor) (opts : ProcessOptions) : ProcessInvocation :=
  if opts.operations.any (fun op => op.type = "merge") then processMerge p opts
  else .ffmpeg (buildFFmpegArgs p opts)

/-- The operation types that have a case in the buildFFmpegArgs switch,
in source order. -/
def recognizedFFmpegOpTypes : List String :=
  ["trim", "resize", "compress", "convertFormat", "rotate", "crop",
   "extractAudio", "changeSpeed", "createGif", "changeBitrate",
   "adjustVolume", "fadeInOut", "addWatermark", "filters", "split",
   "thumbnail", "addAudio", "addText", "removeAudio", "reverse", "loop"]

/-! ### Concrete states used by counterexamples and witnesses -/

/-- A job row already cancelled, with owner and positive minutes. -/
def c1State : SysState :=
  { row := { id := "j1", userId := some "u1", status := "cancelled",
             conversionMinutes := 2, progress := ⟨40, "Encoding", 9⟩,
             outputFileId := none, error := none,
             startedAt := some 1, completedAt := some 3 },
    profiles := fun _ => 0,
    events := [] }

/-- A processing job owned by a paying tenant with two conversion
minutes. -/
def c2State : SysState :=
  { row := { id := "j2", userId := some "u1", status := "processing",
             conversionMinutes := 2, progress := ⟨40, "Encoding", 9⟩,
             outputFileId := none, error := none,
             startedAt := some 1, completedAt := none },
    profiles := fun _ => 0,
    events := [] }

/-- A job row already failed, hence terminal. -/
def c3FailedState : SysState :=
  { row := { id := "j3", userId := some "u1", status := "failed",
             conversionMinutes := 1, progress := ⟨80, "Encoding", 2⟩,
             outputFileId := none,
             error := some ⟨"PROCESSING_ERROR", "boom", true⟩,
             startedAt := some 1, completedAt := some 4 },
    profiles := fun _ => 0,
    events := [] }

/-- A freshly queued job row. -/
def c3QueuedState : SysState :=
  { row := { id := "j4", userId := some "u1", status := "queued",
             conversionMinutes := 1, progress := ⟨0, "", 0⟩,
             outputFileId := none, error := none,
             startedAt := none, completedAt := none },
    profiles := fun _ => 0,
    events := [] }

/-- A subscriber whose 256-slot outbound buffer is full. -/
def slowClientFull : WsClient :=
  { id := 1, send := List.replicate 256 "e", subscriptions := ["jobX"] }

/-- A subscriber with an empty outbound buffer. -/
def fastClient : WsClient :=
  { id := 2, send := [], subscriptions := ["jobX"] }

/-- A job owned by a tenant different from the caller of the list query. -/
def otherJob : JobListRow := ⟨"j9", some "other", "queued", 100⟩

/-- A small jobs table with an owned row and an anonymous row. -/
def c9Table : List JobListRow :=
  [⟨"j1", some "alice", "queued", 5⟩, ⟨"j2", none, "completed", 9⟩]

/-- A job stored with a NULL owner, as CreateJob stores anonymous
submissions, completing against a profiles table with nonzero usage. -/
def c10State : SysState :=
  { row := { id := "j10", userId := none, status := "processing",
             conversionMinutes := 3, progress := ⟨50, "Encoding", 1⟩,
             outputFileId := none, error := none,
             startedAt := some 1, completedAt := none },
    profiles := fun _ => 7,
    events := [] }

/-! ### Helper lemmas -/

set_option maxRecDepth 8000

/-- Unfolding equation for SendToJob on a nonempty client list. -/
theorem SendToJob_cons (c : WsClient) (rest : List WsClient) (j m : String) :
    SendToJob (c :: rest) j m =
      (if c.subscriptions.contains j then trySendToClient c m else c)
        :: SendToJob rest j m := rfl

/-- Membership through insertDesc. -/
theorem mem_insertDesc {x r : JobListRow} {l : List JobListRow} :
    x ∈ insertDesc r l ↔ x = r ∨ x ∈ l := by
  induction l with
  | nil => simp [insertDesc]
  | cons a as ih =>
    unfold insertDesc
    by_cases h : a.createdAt ≤ r.createdAt
    · simp [h, List.mem_cons]
    · simp [h, List.mem_cons, ih]
      tauto

/-- insertDesc adds exactly one element. -/
theorem length_insertDesc (r : JobListRow) (l : List JobListRow) :
    (insertDesc r l).length = l.length + 1 := by
  induction l with
  | nil => rfl
  | cons a as ih =>
    unfold insertDesc
    by_cases h : a.createdAt ≤ r.createdAt
    · simp [h]
    · simp [h, ih]

/-- insertDesc preserves the descending created_at order. -/
theorem sorted_insertDesc {r : JobListRow} {l : List JobListRow}
    (hl : l.Pairwise (fun a b => b.createdAt ≤ a.createdAt)) :
    (insertDesc r l).Pairwise (fun a b => b.createdAt ≤ a.createdAt) := by
  induction l with
  | nil => simp [insertDesc]
  | cons a as ih =>
    unfold insertDesc
    rcases List.pairwise_cons.mp hl with ⟨ha, has⟩
    by_cases h : a.createdAt ≤ r.createdAt
    · rw [if_pos h]
      refine List.pairwise_cons.mpr ⟨?_, hl⟩
      intro y hy
      rcases List.mem_cons.mp hy with hy | hy
      · subst hy; exact h
      · exact le_trans (ha y hy) h
    · rw [if_neg h]
      refine List.pairwise_cons.mpr ⟨?_, ih has⟩
      intro y hy
      rcases mem_insertDesc.mp hy with hy | hy
      · subst hy; omega
      · exact ha y hy

/-- Membership through sortDesc. -/
theorem mem_sortDesc {x : JobListRow} {l : List JobListRow} :
    x ∈ sortDesc l ↔ x ∈ l := by
  induction l with
  | nil => simp [sortDesc]
  | cons a as ih =>
    unfold sortDesc
    rw [mem_insertDesc]
    simp [ih]

/-- sortDesc preserves length. -/
theorem length_sortDesc (l : List JobListRow) :
    (sortDesc l).length = l.length := by
  induction l with
  | nil => rfl
  | cons a as ih =>
    unfold sortDesc
    rw [length_insertDesc, ih]
    rfl

/-- sortDesc output is in descending created_at order. -/
theorem sorted_sortDesc (l : List JobListRow) :
    (sortDesc l).Pairwise (fun a b => b.createdAt ≤ a.createdAt) := by
  induction l with
  | nil => simp [sortDesc]
  | cons a as ih => exact sorted_insertDesc ih

/-- An operation whose type has no case in the buildFFmpegArgs switch
leaves the loop state unchanged. -/
theorem ffmpegOpStep_eq_of_unrecognized (p : Processor) (inp outp : String)
    (st : ArgState) (t : String) (ps : Params)
    (h : t ∉ recognizedFFmpegOpTypes) :
    ffmpegOpStep p inp outp st ⟨t, ps⟩ = .inl st := by
  simp only [recognizedFFmpegOpTypes, List.mem_cons, List.not_mem_nil, or_false,
    not_or] at h
  obtain ⟨h1, h2, h3, h4, h5, h6, h7, h8, h9, h10, h11, h12, h13, h14, h15,
    h16, h17, h18, h19, h20, h21⟩ := h
  simp [ffmpegOpStep, h1, h2, h3, h4, h5, h6, h7, h8, h9, h10, h11, h12, h13,
    h14, h15, h16, h17, h18, h19, h20, h21]

/-! ### Claim theorems -/

/-- C1 counterexample: a cancelled job is terminal, yet a subsequent
UpdateProgress moves its status to processing, so terminal statuses are
not sticky as the claim states. -/
theorem C1_counterexample :
    isTerminal c1State.row.status = true ∧
    (applyCall 5 (.updateProgress 50 "Encoding" 10) c1State).row.status
      = "processing" ∧
    (applyCall 5 (.updateProgress 50 "Encoding" 10) c1State).row.status
      ≠ c1State.row.status := by
  decide

/-- C1 (amended): terminal statuses are not sticky. UpdateProgress always
sets status processing, CompleteJob always sets completed and FailJob
always sets failed, whatever the current status, including terminal ones;
the only terminal guard is in CancelJob, which leaves the status
unchanged exactly when it is completed or cancelled, so even a failed
job is moved to cancelled. -/
theorem C1_terminal_stickiness_amended (now : Nat) (s : SysState)
    (p eta : Int) (op f m : String) (r : Bool) :
    (applyCall now (.updateProgress p op eta) s).row.status = "processing" ∧
    (applyCall now (.complete f) s).row.status = "completed" ∧
    (applyCall now (.fail m r) s).row.status = "failed" ∧
    (applyCall now .cancel s).row.status =
      (if s.row.status = "completed" ∨ s.row.status = "cancelled"
       then s.row.status else "cancelled") := by
  refine ⟨rfl, rfl, rfl, ?_⟩
  by_cases h : s.row.status = "completed" ∨ s.row.status = "cancelled"
  · simp [applyCall, CancelJob, h]
  · simp [applyCall, CancelJob, h]

/-- C2 counterexample: completing the same job twice publishes two
job:completed events, records the conversion minutes twice (four minutes
for a two-minute job), and the second call changes the row, so the second
Complete is not a no-op and exactly one event is not what happens.
The initial state is a cancelled row, underlining that Complete also runs
in full on a terminal row. -/
theorem C2_counterexample :
    ((CompleteJob 11 "f1" (CompleteJob 10 "f1" c2State)).events.countP
        (fun e => e.msgType = "job:completed")) = 2 ∧
    (CompleteJob 11 "f1" (CompleteJob 10 "f1" c2State)).profiles "u1" = 4 ∧
    (CompleteJob 11 "f1" (CompleteJob 10 "f1" c2State)).row ≠
      (CompleteJob 10 "f1" c2State).row := by
  decide

/-- C2 (amended): Complete is idempotent only on status, outputFileId and
progress. A second Complete overwrites completedAt with its own time,
publishes a second job:completed event, and for a non-anonymous owner
with positive conversion minutes records the minutes again, doubling the
usage after two calls. -/
theorem C2_idempotent_completion_amended (t1 t2 : Nat) (f : String)
    (s : SysState) (u : String) (hu : s.row.userId = some u)
    (h1 : u ≠ "") (h2 : u ≠ "anonymous")
    (hcm : 0 < s.row.conversionMinutes) :
    (CompleteJob t2 f (CompleteJob t1 f s)).row =
      { (CompleteJob t1 f s).row with completedAt := some t2 } ∧
    (CompleteJob t2 f (CompleteJob t1 f s)).events =
      (CompleteJob t1 f s).events ++ [WsEvent.completed s.row.id f] ∧
    (CompleteJob t2 f (CompleteJob t1 f s)).profiles u =
      s.profiles u + 2 * s.row.conversionMinutes := by
  have hcm2 : ¬ s.row.conversionMinutes ≤ 0 := by omega
  refine ⟨rfl, rfl, ?_⟩
  simp [CompleteJob, RecordConversionMinutes, hu, h1, h2, hcm, hcm2]
  ring

/-- C2 witness: the amended statement at the concrete processing job. -/
theorem C2_witness :
    (CompleteJob 11 "f1" (CompleteJob 10 "f1" c2State)).row =
      { (CompleteJob 10 "f1" c2State).row with completedAt := some 11 } ∧
    (CompleteJob 11 "f1" (CompleteJob 10 "f1" c2State)).events =
      (CompleteJob 10 "f1" c2State).events
        ++ [WsEvent.completed c2State.row.id "f1"] ∧
    (CompleteJob 11 "f1" (CompleteJob 10 "f1" c2State)).profiles "u1" =
      c2State.profiles "u1" + 2 * c2State.row.conversionMinutes :=
  C2_idempotent_completion_amended 10 11 "f1" c2State "u1" rfl
    (by decide) (by decide) (by decide)

/-- C3 counterexample: cancelling a failed job, which is terminal,
succeeds, and a successful cancel of a queued job publishes a job:failed
frame, not a cancelled one; both parts contradict the claim. -/
theorem C3_counterexample :
    isTerminal c3FailedState.row.status = true ∧
    (CancelJob 7 c3FailedState).toOption.map (fun s => s.row.status)
      = some "cancelled" ∧
    (CancelJob 9 c3QueuedState).toOption.map
        (fun s => s.events.map WsEvent.msgType) = some ["job:failed"] := by
  decide

/-- C3 (amended): Cancel succeeds exactly when the current status is
neither completed nor cancelled, so a failed job can still be cancelled;
on success it sets status cancelled and completedAt to now and publishes
a job:failed event carrying the message Job cancelled by user. -/
theorem C3_cancel_amended (now : Nat) (s : SysState) :
    CancelJob now s =
      (if s.row.status = "completed" ∨ s.row.status = "cancelled" then
        Except.error ("job cannot be cancelled: status is " ++ s.row.status)
      else
        Except.ok { s with
          row := { s.row with status := "cancelled", completedAt := some now },
          events := s.events
            ++ [WsEvent.failed s.row.id "Job cancelled by user"] }) := rfl

/-- C4: the claim says a pro submission is enqueued on the critical
queue, but EnqueueMediaProcess has switch cases only for high and low, so
the critical priority string that CreateJob passes for the pro (and
standard) tier falls through to the default queue; only the basic tier,
whose priority string is high, lands on the critical queue. This is the
routing the code performs, evaluated tier by tier. -/
theorem C4_priority_routing_eval :
    routedQueue "pro" = "default" ∧
    routedQueue "basic" = "critical" ∧
    routedQueue "free" = "default" ∧
    routedQueue "standard" = "default" ∧
    (GetTierLimits "pro").priority = "critical" ∧
    createJobQueuePriority "pro" = "critical" ∧
    createJobPriorityInt "pro" = 1 := by
  decide

/-- C5 counterexample: for a job owned by tenant u1 whose output path
ends in .mp3, the inserted output file row expires seven days after
creation rather than 24 hours, carries no owner at all, and has media
type video, contradicting the claimed expiry, ownership and derivation
from the extension. -/
theorem C5_counterexample :
    (insertedOutputFile "j1" "/data/output/j1.mp3" 2048 1000).zone
      = "output" ∧
    (insertedOutputFile "j1" "/data/output/j1.mp3" 2048 1000).expiresAt
      ≠ 1000 + 24 * 60 * 60 ∧
    (insertedOutputFile "j1" "/data/output/j1.mp3" 2048 1000).expiresAt
      = 1000 + 7 * 24 * 60 * 60 ∧
    (insertedOutputFile "j1" "/data/output/j1.mp3" 2048 1000).userId
      ≠ some "u1" ∧
    (insertedOutputFile "j1" "/data/output/j1.mp3" 2048 1000).mediaType
      = "video" := by
  decide

/-- C5 (amended): on job success the executor creates a File row in the
output zone whose expiry is now plus seven days, whose owner is NULL
regardless of the job owner because the INSERT omits user_id, and whose
media type and mime type are the constants video and video/mp4 regardless
of the output extension; the storage path is the queue payload output
path and the row id is the job id. -/
theorem C5_output_file_amended (jobID outputPath : String) (size : Int)
    (now : Nat) :
    (insertedOutputFile jobID outputPath size now).zone = "output" ∧
    (insertedOutputFile jobID outputPath size now).expiresAt
      = now + 7 * 24 * 60 * 60 ∧
    (insertedOutputFile jobID outputPath size now).userId = none ∧
    (insertedOutputFile jobID outputPath size now).mediaType = "video" ∧
    (insertedOutputFile jobID outputPath size now).mimeType = "video/mp4" ∧
    (insertedOutputFile jobID outputPath size now).storagePath = outputPath ∧
    (insertedOutputFile jobID outputPath size now).id = jobID :=
  ⟨rfl, rfl, rfl, rfl, rfl, rfl, rfl⟩

/-- C6 counterexample: publishing a job event to a subscriber whose
256-slot buffer is full leaves the client list unchanged: the subscriber
is neither dropped nor closed, its buffer simply misses the event,
contradicting the claimed drop within the publish. -/
theorem C6_counterexample :
    slowClientFull.send.length = sendBufferCap ∧
    SendToJob [slowClientFull] "jobX" "evt" = [slowClientFull] := by
  constructor
  · decide
  · rfl

/-- C6 (amended): SendToJob never drops a subscriber: the client list
keeps its length, a subscriber with a full buffer stays registered and
unchanged, a client not subscribed to the job is untouched, and a
subscriber with buffer room receives the event appended to its buffer;
the publisher is a total function of the prior state, so it never
blocks. -/
theorem C6_nonblocking_publish_amended (clients : List WsClient)
    (jobID msg : String) :
    (SendToJob clients jobID msg).length = clients.length ∧
    (∀ c, c ∈ clients → sendBufferCap ≤ c.send.length →
      c ∈ SendToJob clients jobID msg) ∧
    (∀ c, c ∈ clients → c.subscriptions.contains jobID = false →
      c ∈ SendToJob clients jobID msg) ∧
    (∀ c, c ∈ clients → c.subscriptions.contains jobID = true →
      c.send.length < sendBufferCap →
      { c with send := c.send ++ [msg] } ∈ SendToJob clients jobID msg) := by
  induction clients with
  | nil => simp [SendToJob]
  | cons c rest ih =>
    refine ⟨?_, ?_, ?_, ?_⟩
    · rw [SendToJob_cons]
      simp [ih.1]
    · intro d hd hfull
      rw [SendToJob_cons]
      rcases List.mem_cons.mp hd with h | h
      · subst h
        have ht : trySendToClient d msg = d := by
          unfold trySendToClient
          rw [if_neg (by omega)]
        by_cases hc : d.subscriptions.contains jobID
        · rw [if_pos hc, ht]
          exact List.mem_cons_self _ _
        · rw [if_neg hc]
          exact List.mem_cons_self _ _
      · exact List.mem_cons_of_mem _ (ih.2.1 d h hfull)
    · intro d hd hns
      rw [SendToJob_cons]
      rcases List.mem_cons.mp hd with h | h
      · subst h
        have hns2 : ¬ (d.subscriptions.contains jobID = true) := by
          simp only [hns]
          exact Bool.false_ne_true
        rw [if_neg hns2]
        exact List.mem_cons_self _ _
      · exact List.mem_cons_of_mem _ (ih.2.2.1 d h hns)
    · intro d hd hs hroom
      rw [SendToJob_cons]
      rcases List.mem_cons.mp hd with h | h
      · subst h
        have ht : trySendToClient d msg = { d with send := d.send ++ [msg] } := by
          unfold trySendToClient
          rw [if_pos hroom]
        rw [if_pos hs, ht]
        exact List.mem_cons_self _ _
      · exact List.mem_cons_of_mem _ (ih.2.2.2 d h hs hroom)

/-- C6 witness: with a fast and a full slow subscriber of the same job,
one publish keeps the slow one registered untouched and delivers the
event to the fast one. -/
theorem C6_witness :
    slowClientFull ∈ SendToJob [fastClient, slowClientFull] "jobX" "m" ∧
    { fastClient with send := fastClient.send ++ ["m"] } ∈
      SendToJob [fastClient, slowClientFull] "jobX" "m" :=
  ⟨(C6_nonblocking_publish_amended [fastClient, slowClientFull] "jobX" "m").2.1
      slowClientFull (by decide) (by decide),
   (C6_nonblocking_publish_amended [fastClient, slowClientFull] "jobX" "m").2.2.2
      fastClient (by decide) (by decide) (by decide)⟩

/-- C7: the conversion minutes law holds: for every rational duration the
computed minutes equal the maximum of one and the ceiling of the duration
divided by sixty, with the stated concrete values and the floor of one
for non-positive durations. -/
theorem C7_conversion_minutes_law :
    (∀ s : ℚ, ConversionMinutesFromDuration s = max 1 ⌈s / 60⌉) ∧
    ConversionMinutesFromDuration 0 = 1 ∧
    ConversionMinutesFromDuration 60 = 1 ∧
    ConversionMinutesFromDuration 61 = 2 ∧
    ConversionMinutesFromDuration 3661 = 62 ∧
    (∀ s : ℚ, s ≤ 0 → ConversionMinutesFromDuration s = 1) := by
  have law : ∀ s : ℚ, ConversionMinutesFromDuration s = max 1 ⌈s / 60⌉ := by
    intro s
    unfold ConversionMinutesFromDuration
    split
    · rename_i h
      have hc : ⌈s / 60⌉ ≤ 0 :=
        Int.ceil_le.mpr
          (by push_cast
              rw [div_nonpos_iff]
              right
              exact ⟨h, by norm_num⟩)
      omega
    · rename_i h
      push_neg at h
      have hc : 0 < ⌈s / 60⌉ := Int.ceil_pos.mpr (div_pos h (by norm_num))
      omega
  refine ⟨law, ?_, ?_, ?_, ?_, ?_⟩
  · simp [ConversionMinutesFromDuration]
  · unfold ConversionMinutesFromDuration
    rw [if_neg (by norm_num)]
    rw [Int.ceil_eq_iff]
    norm_num
  · unfold ConversionMinutesFromDuration
    rw [if_neg (by norm_num)]
    rw [Int.ceil_eq_iff]
    norm_num
  · unfold ConversionMinutesFromDuration
    rw [if_neg (by norm_num)]
    rw [Int.ceil_eq_iff]
    norm_num
  · intro s h
    unfold ConversionMinutesFromDuration
    rw [if_pos h]

/-- C7 witness: the non-positive branch of the law at minus five
seconds. -/
theorem C7_witness : ConversionMinutesFromDuration (-5) = 1 :=
  C7_conversion_minutes_law.2.2.2.2.2 (-5) (by norm_num)

/-- C8 counterexample: a job whose only operation has the unrecognized
type sepiaExplode does not fail before the tool runs: Process reaches the
FFmpeg invocation with the base arguments, the unknown operation having
contributed nothing, and no OP_UNKNOWN error is produced anywhere. -/
theorem C8_counterexample :
    Process defaultProcessor ⟨"in.mp4", [], "out.mp4", [⟨"sepiaExplode", []⟩]⟩
      = .ffmpeg ["-y", "-i", "in.mp4", "out.mp4"] := rfl

/-- C8 (amended): an operation of unrecognized type is silently ignored:
prepending it to any operation list leaves the Process outcome unchanged,
so the tool is still invoked and nothing fails at normalization; the only
error record the executor ever writes on failure carries the code
PROCESSING_ERROR, never OP_UNKNOWN. -/
theorem C8_unknown_op_amended (p : Processor) (inp outp : String)
    (inps : List String) (ops : List Operation) (t : String) (ps : Params)
    (h : t ∉ recognizedFFmpegOpTypes) (hm : t ≠ "merge") :
    Process p ⟨inp, inps, outp, ⟨t, ps⟩ :: ops⟩
      = Process p ⟨inp, inps, outp, ops⟩ ∧
    (∀ (now : Nat) (m : String) (r : Bool) (s : SysState),
      (FailJob now m r s).row.error = some ⟨"PROCESSING_ERROR", m, r⟩) := by
  constructor
  · have hstep : ∀ st, ffmpegOpStep p inp outp st ⟨t, ps⟩ = .inl st :=
      fun st => ffmpegOpStep_eq_of_unrecognized p inp outp st t ps h
    by_cases hany : ops.any (fun op => op.type = "merge")
    · simp [Process, hm, hany, processMerge]
    · simp [Process, hm, hany, buildFFmpegArgs, ffmpegOpsLoop, hstep]
  · intro now m r s
    rfl

/-- C8 witness: the amended statement at a concrete unknown operation
prepended to a removeAudio operation. -/
theorem C8_witness :
    Process defaultProcessor ⟨"in.mp4", [], "out.mp4",
        [⟨"explodeFrames", [("x", PValue.int 1)]⟩, ⟨"removeAudio", []⟩]⟩
      = Process defaultProcessor ⟨"in.mp4", [], "out.mp4",
          [⟨"removeAudio", []⟩]⟩ :=
  (C8_unknown_op_amended defaultProcessor "in.mp4" "out.mp4" []
    [⟨"removeAudio", []⟩] "explodeFrames" [("x", PValue.int 1)]
    (by decide) (by decide)).1

/-- C9 counterexample: an anonymous caller receives a job owned by a
different tenant, so the listing does not return only jobs of the
requesting owner. -/
theorem C9_counterexample :
    otherJob ∈ ListJobs "anonymous" "" [otherJob] ∧
    otherJob.userId ≠ some "anonymous" := by
  decide

/-- C9 (amended): ListJobs returns at most fifty rows in descending
created_at order, each returned row comes from the table and satisfies
the WHERE clause, and when at most fifty rows match, every matching row
is returned; the WHERE clause admits every row for an empty or anonymous
caller and, for an authenticated caller, rows owned by the caller or by
nobody, with the optional status filter. -/
theorem C9_list_jobs_amended (userID status : String)
    (table : List JobListRow) :
    (ListJobs userID status table).length ≤ 50 ∧
    (ListJobs userID status table).Pairwise
      (fun a b => b.createdAt ≤ a.createdAt) ∧
    (∀ r, r ∈ ListJobs userID status table →
      r ∈ table ∧ listJobsWhere userID status r = true) ∧
    ((table.filter (listJobsWhere userID status)).length ≤ 50 →
      ∀ r, r ∈ table → listJobsWhere userID status r = true →
        r ∈ ListJobs userID status table) := by
  refine ⟨?_, ?_, ?_, ?_⟩
  · simp [ListJobs, List.length_take]
  · exact (sorted_sortDesc _).sublist (List.take_sublist _ _)
  · intro r hr
    have hmem : r ∈ sortDesc (table.filter (listJobsWhere userID status)) :=
      List.take_subset _ _ hr
    have hf := mem_sortDesc.mp hmem
    exact ⟨(List.mem_filter.mp hf).1, (List.mem_filter.mp hf).2⟩
  · intro hlen r hrt hw
    have hmem : r ∈ sortDesc (table.filter (listJobsWhere userID status)) :=
      mem_sortDesc.mpr (List.mem_filter.mpr ⟨hrt, hw⟩)
    unfold ListJobs
    rw [List.take_of_length_le (by rw [length_sortDesc]; exact hlen)]
    exact hmem

/-- C9 witness: for the caller alice on the small table, the anonymous
row with NULL owner is returned by the amended completeness property. -/
theorem C9_witness :
    (⟨"j2", none, "completed", 9⟩ : JobListRow) ∈ ListJobs "alice" "" c9Table :=
  (C9_list_jobs_amended "alice" "" c9Table).2.2.2 (by decide)
    ⟨"j2", none, "completed", 9⟩ (by decide) (by decide)

/-- C10: anonymous usage is admission-checked but never recorded. With
the subscription service wired in, the CreateJob admission check runs for
the literal anonymous owner and is keyed by that shared id; the stored
owner of such a job is NULL by nullString; and CompleteJob on a row with
NULL owner leaves the usage of every tenant unchanged, because the
recording guard requires a non-null owner. -/
theorem C10_anonymous_usage :
    (∀ (profiles : String → Int) (tierOf : String → String) (cm : Int),
      createJobAdmission profiles tierOf "anonymous" cm =
        CheckLimitConversionMinutes profiles tierOf "anonymous"
          (createJobCheckedMinutes cm)) ∧
    nullString "anonymous" = none ∧
    (∀ (now : Nat) (f : String) (s : SysState), s.row.userId = none →
      ∀ u, (CompleteJob now f s).profiles u = s.profiles u) := by
  refine ⟨fun _ _ _ => rfl, rfl, ?_⟩
  intro now f s h u
  simp [CompleteJob, h]

/-- C10 witness: completing a NULL-owner job leaves the usage of an
arbitrary tenant unchanged, at the concrete stored-anonymous state. -/
theorem C10_witness :
    (CompleteJob 9 "f9" c10State).profiles "tenantA"
      = c10State.profiles "tenantA" :=
  C10_anonymous_usage.2.2 9 "f9" c10State rfl "tenantA"

end NextConvert
